import Mathlib

set_option autoImplicit false

/-!
Shallow embedding of the NotificationAPI fan-out service: the dedup cache
(shouldProcessEvent), the broadcaster (broadcastLibraryEvent), the RabbitMQ and
Kafka consume handlers, the SSE endpoint handler and the WebSocket connection
handler, together with proofs of the specified properties.
-/

namespace LibraryNotification

/-- A raw domain event as parsed from a transport message body. Only the three
fields the service reads for identity are modelled by name; `none` models an
absent field. The `borrow_id` field is kept as its JS string rendering. -/
structure RawEvent where
  event : Option String
  borrow_id : Option String
  timestamp : Option String
deriving DecidableEq

/-- JS `x || d` on an optional string field: an absent or empty (falsy) value
falls back to the default. -/
def orFalsy (o : Option String) (d : String) : String :=
  match o with
  | none => d
  | some s => if s = "" then d else s

/-- The dedup key template from shouldProcessEvent:
`event || unknown` then `|` then `borrow_id || empty` then `|` then `timestamp || empty`. -/
def dedupKey (e : RawEvent) : String :=
  orFalsy e.event ("unknown") ++ "|" ++ orFalsy e.borrow_id ("") ++ "|" ++ orFalsy e.timestamp ("")

/-- The dedupeCache Map, key to expiry timestamp, as an association list in
insertion order. -/
abbrev DedupCache := List (String × Nat)

/-- DEDUPE_TTL_MS = 2 * 60 * 1000. -/
def DEDUPE_TTL_MS : Nat := 2 * 60 * 1000

/-- `dedupeCache.has(key)` and the value bound to a key: first matching entry. -/
def findExpiry (cache : DedupCache) (key : String) : Option Nat :=
  match cache with
  | [] => none
  | kv :: rest => if kv.1 = key then some kv.2 else findExpiry rest key

/-- The sweep loop in shouldProcessEvent: delete every entry whose expiresAt
is at or before now; an entry survives iff now < expiresAt. -/
def sweepExpired (cache : DedupCache) (now : Nat) : DedupCache :=
  cache.filter (fun kv => now < kv.2)

/-- shouldProcessEvent: build the key, sweep expired entries, then check
membership; a fresh key is inserted with expiry now + DEDUPE_TTL_MS and the
function returns true, a present key returns false. -/
def shouldProcessEvent (e : RawEvent) (now : Nat) (cache : DedupCache) : Bool × DedupCache :=
  let key := dedupKey e
  let swept := sweepExpired cache now
  match findExpiry swept key with
  | some _ => (false, swept)
  | none => (true, swept ++ [(key, now + DEDUPE_TTL_MS)])

/-- WebSocket readyState values. -/
inductive ReadyState
  | CONNECTING
  | OPEN
  | CLOSING
  | CLOSED
deriving DecidableEq

/-- A WebSocket client handle in connectedClients: identified by reference
(modelled as an id) with its current readyState. -/
structure WSClient where
  id : Nat
  readyState : ReadyState
deriving DecidableEq

/-- An SSE response handle in sseClients: identified by reference (modelled as
an id); writeFails models a response whose write throws. -/
structure SSEClient where
  id : Nat
  writeFails : Bool
deriving DecidableEq

/-- The data field of the outbound payload: the spread of all fields of the
original event plus the source key naming the origin transport. -/
structure PayloadData where
  ev : RawEvent
  source : String
deriving DecidableEq

/-- The outbound payload built at the top of broadcastLibraryEvent:
type = event.event, data = spread of event plus source, timestamp = receipt
time as an ISO string. -/
structure Payload where
  type : Option String
  data : PayloadData
  timestamp : String
deriving DecidableEq

/-- The payload construction in broadcastLibraryEvent. -/
def mkPayload (e : RawEvent) (source : String) (nowIso : String) : Payload :=
  { type := e.event, data := { ev := e, source := source }, timestamp := nowIso }

/-- JSON string literal. -/
def jsonStr (s : String) : String := "\x22" ++ s ++ "\x22"

/-- JSON object from optional fields; a `none` field models a key whose value
is undefined and is omitted by JSON.stringify. -/
def jsonObj (fields : List (Option (String × String))) : String :=
  "\x7b" ++ String.intercalate (",") ((fields.filterMap id).map (fun f => jsonStr f.1 ++ ":" ++ f.2)) ++ "\x7d"

/-- JSON.stringify of the data object: the event fields in declaration order
followed by source. -/
def serializeData (d : PayloadData) : String :=
  jsonObj [
    d.ev.event.map (fun v => ("event", jsonStr v)),
    d.ev.borrow_id.map (fun v => ("borrow_id", v)),
    d.ev.timestamp.map (fun v => ("timestamp", jsonStr v)),
    some ("source", jsonStr d.source)
  ]

/-- JSON.stringify of the whole payload. -/
def serializePayload (p : Payload) : String :=
  jsonObj [
    p.type.map (fun v => ("type", jsonStr v)),
    some ("data", serializeData p.data),
    some ("timestamp", jsonStr p.timestamp)
  ]

/-- JS template interpolation of a possibly undefined value. -/
def jsTemplate (o : Option String) : String :=
  match o with
  | none => "undefined"
  | some s => s

/-- The SSE block template used for every labeled block written by the
service: an event label line then a data line then a blank line. -/
def labeledBlock (label data : String) : String :=
  "event: " ++ label ++ "\ndata: " ++ data ++ "\n\n"

/-- The SSE frame built in broadcastLibraryEvent for one payload. -/
def sseFrame (p : Payload) : String :=
  labeledBlock (jsTemplate p.type) (serializePayload p)

/-- The initial SSE block written by the events endpoint on connect. -/
def connectedFrame (nowIso : String) : String :=
  labeledBlock ("connected") (jsonObj [some ("ok", "true"), some ("timestamp", jsonStr nowIso)])

/-- The keep-alive block written by the interval callback in the events
endpoint: a block labeled ping carrying Date.now(). -/
def pingFrame (t : Nat) : String :=
  labeledBlock ("ping") (toString t)

/-- The keep-alive interval of the events endpoint, milliseconds. -/
def KEEP_ALIVE_INTERVAL_MS : Nat := 25000

/-- The time of the k-th firing of a setInterval started at t0. -/
def intervalTick (t0 k : Nat) : Nat := t0 + KEEP_ALIVE_INTERVAL_MS * (k + 1)

/-- The shared mutable state of the service: the two subscriber sets and the
dedup cache. -/
structure NotifState where
  connectedClients : List WSClient
  sseClients : List SSEClient
  dedupeCache : DedupCache
deriving DecidableEq

/-- One delivery attempt performed during a broadcast: a send on a WebSocket
client, or a write on an SSE response (ok records whether the write threw). -/
inductive Delivery
  | wsSend (c : WSClient) (msg : String)
  | sseWrite (c : SSEClient) (block : String) (ok : Bool)
deriving DecidableEq

/-- broadcastLibraryEvent: build the payload once; send its JSON to every
WebSocket client whose readyState is OPEN; write the SSE frame to every SSE
client, catching and ignoring write errors. The shared state is not mutated. -/
def broadcastLibraryEvent (e : RawEvent) (source : String) (nowIso : String) (st : NotifState) :
    List Delivery × NotifState :=
  let payload := mkPayload e source nowIso
  let wsMsgs := (st.connectedClients.filter (fun c => c.readyState = ReadyState.OPEN)).map
    (fun c => Delivery.wsSend c (serializePayload payload))
  let frame := sseFrame payload
  let sseMsgs := st.sseClients.map (fun c => Delivery.sseWrite c frame (!c.writeFails))
  (wsMsgs ++ sseMsgs, st)

/-- The per-connection close handler of a WebSocket client: delete from
connectedClients. -/
def wsCloseHandler (ws : WSClient) (st : NotifState) : NotifState :=
  { st with connectedClients := st.connectedClients.filter (fun x => x ≠ ws) }

/-- The per-connection error handler of a WebSocket client: delete from
connectedClients. -/
def wsErrorHandler (ws : WSClient) (st : NotifState) : NotifState :=
  { st with connectedClients := st.connectedClients.filter (fun x => x ≠ ws) }

/-- The close handler of an SSE request: delete the response from sseClients
(and clear its keep-alive interval). -/
def sseCloseHandler (res : SSEClient) (st : NotifState) : NotifState :=
  { st with sseClients := st.sseClients.filter (fun r => r ≠ res) }

/-- Outcome of the WebSocket connection handler. -/
inductive ConnResult
  | closed (code : Nat) (reason : String)
  | accepted
deriving DecidableEq

/-- Close reason for a missing token. -/
def missingTokenMsg : String := "Missing token"

/-- Close reason for an invalid token. -/
def invalidTokenMsg : String := "Invalid token"

/-- The wss connection handler: read the token query parameter; a missing or
empty (falsy) token closes with 4001; a token failing jwt.verify (modelled by
the verify predicate) closes with 4002; otherwise the client is added to
connectedClients. -/
def wssOnConnection (verify : String → Bool) (token : Option String) (ws : WSClient)
    (st : NotifState) : ConnResult × NotifState :=
  match token with
  | none => (ConnResult.closed 4001 missingTokenMsg, st)
  | some t =>
    if t = "" then (ConnResult.closed 4001 missingTokenMsg, st)
    else if verify t then
      (ConnResult.accepted, { st with connectedClients := st.connectedClients ++ [ws] })
    else (ConnResult.closed 4002 invalidTokenMsg, st)

/-- The events endpoint handler body after the auth middleware passed: write
the connected block, then add the response to sseClients. Returns the writes
performed and the new state. -/
def sseConnect (res : SSEClient) (nowIso : String) (st : NotifState) : List String × NotifState :=
  ([connectedFrame nowIso], { st with sseClients := st.sseClients ++ [res] })

/-- The origin transport of an ingested event. -/
inductive Transport
  | rabbitmq
  | kafka
deriving DecidableEq

/-- The source string passed to broadcastLibraryEvent by each consumer. -/
def sourceName : Transport → String
  | Transport.rabbitmq => "rabbitmq"
  | Transport.kafka => "kafka"

/-- The shared pipeline both consumers run on a parsed event: the dedup gate,
then on a fresh key a broadcast. Returns the new state and the number of
broadcasts performed (0 or 1). -/
def ingest (tr : Transport) (e : RawEvent) (now : Nat) (nowIso : String) (st : NotifState) :
    NotifState × Nat :=
  match shouldProcessEvent e now st.dedupeCache with
  | (true, cache1) =>
    ((broadcastLibraryEvent e (sourceName tr) nowIso { st with dedupeCache := cache1 }).2, 1)
  | (false, cache1) => ({ st with dedupeCache := cache1 }, 0)

/-- A raw transport message body: either it parses as JSON to an event, or
JSON.parse throws. -/
inductive RawMsg
  | wellFormed (e : RawEvent)
  | malformed (s : String)
deriving DecidableEq

/-- A message with its receipt time and receipt-time ISO string. -/
structure TimedMsg where
  msg : RawMsg
  now : Nat
  iso : String
deriving DecidableEq

/-- The observable outcome of a run of the RabbitMQ consume handler over a
list of messages. -/
structure RunStats where
  final : NotifState
  broadcasts : Nat
  acks : Nat
  parseErrors : Nat
deriving DecidableEq

/-- The RabbitMQ consume handler over a message list: parse the body; on
parse failure log the error; on success run the dedup gate and broadcast fresh
events; in every case ack the message in the finally clause. -/
def consumeRabbitList : List TimedMsg → NotifState → RunStats
  | [], st => { final := st, broadcasts := 0, acks := 0, parseErrors := 0 }
  | m :: rest, st =>
    match m.msg with
    | RawMsg.malformed _ =>
      let r := consumeRabbitList rest st
      { r with acks := r.acks + 1, parseErrors := r.parseErrors + 1 }
    | RawMsg.wellFormed e =>
      let p := ingest Transport.rabbitmq e m.now m.iso st
      let r := consumeRabbitList rest p.1
      { r with broadcasts := r.broadcasts + p.2, acks := r.acks + 1 }

/-- The value of a Kafka message: absent or empty (falsy, skipped before
parsing), or a body to parse. -/
inductive KafkaValue
  | absent
  | content (m : RawMsg)
deriving DecidableEq

/-- The observable outcome of a run of the Kafka eachMessage handler over a
list of messages: Kafka has no explicit ack in this handler, failures are
caught and logged. -/
structure KafkaRun where
  final : NotifState
  broadcasts : Nat
  handlingErrors : Nat
deriving DecidableEq

/-- The Kafka eachMessage handler over a message list: skip falsy values,
catch and log parse failures, run the shared pipeline on parsed events. -/
def consumeKafkaList : List (KafkaValue × Nat × String) → NotifState → KafkaRun
  | [], st => { final := st, broadcasts := 0, handlingErrors := 0 }
  | (v, now, iso) :: rest, st =>
    match v with
    | KafkaValue.absent => consumeKafkaList rest st
    | KafkaValue.content (RawMsg.malformed _) =>
      let r := consumeKafkaList rest st
      { r with handlingErrors := r.handlingErrors + 1 }
    | KafkaValue.content (RawMsg.wellFormed e) =>
      let p := ingest Transport.kafka e now iso st
      let r := consumeKafkaList rest p.1
      { r with broadcasts := r.broadcasts + p.2 }

/-- One happening on an open SSE connection: a keep-alive interval firing at
time t, or a broadcast reaching this connection. -/
inductive SseHappening
  | tick (t : Nat)
  | broadcastEv (e : RawEvent) (source : String) (nowIso : String)

/-- The block written for one happening: the interval callback writes the ping
block, a broadcast writes the labeled event frame. -/
def happeningWrite : SseHappening → String
  | SseHappening.tick t => pingFrame t
  | SseHappening.broadcastEv e s iso => sseFrame (mkPayload e s iso)

/-- All blocks written on one SSE connection for a sequence of happenings. -/
def sseSessionWrites (hs : List SseHappening) : List String :=
  hs.map happeningWrite

/-- Number of send attempts a broadcast made on one WebSocket client. -/
def wsAttempts (ds : List Delivery) (w : WSClient) : Nat :=
  ds.countP (fun d => match d with
    | Delivery.wsSend c _ => decide (c = w)
    | Delivery.sseWrite _ _ _ => false)

/-- Number of write attempts a broadcast made on one SSE client. -/
def sseAttempts (ds : List Delivery) (c : SSEClient) : Nat :=
  ds.countP (fun d => match d with
    | Delivery.wsSend _ _ => false
    | Delivery.sseWrite r _ _ => decide (r = c))

/-- Sample event used by witnesses: the documented book.borrowed payload. -/
def evBorrowed : RawEvent :=
  { event := some ("book.borrowed"), borrow_id := some ("7"),
    timestamp := some ("2025-01-01T00:00:00Z") }

/-- Second sample event with a distinct kind, hence a distinct dedup key. -/
def evReturned : RawEvent :=
  { event := some ("book.returned"), borrow_id := some ("7"),
    timestamp := some ("2025-01-01T00:00:00Z") }

/-- Sample open WebSocket client. -/
def wsOpen1 : WSClient := { id := 1, readyState := ReadyState.OPEN }

/-- Sample WebSocket client whose close handshake is in progress: still in the
set, readyState no longer OPEN. -/
def wsClosing2 : WSClient := { id := 2, readyState := ReadyState.CLOSING }

/-- Sample healthy SSE client. -/
def sseGood3 : SSEClient := { id := 3, writeFails := false }

/-- Sample SSE client whose write throws. -/
def sseBad4 : SSEClient := { id := 4, writeFails := true }

/-- Sample state with one open WebSocket client and one healthy SSE client. -/
def stSample : NotifState :=
  { connectedClients := [wsOpen1], sseClients := [sseGood3], dedupeCache := [] }

/-- Sample state with both WebSocket clients and both SSE clients. -/
def stFull : NotifState :=
  { connectedClients := [wsOpen1, wsClosing2], sseClients := [sseGood3, sseBad4],
    dedupeCache := [] }

/-- Sample state holding only the failing SSE client. -/
def stBad : NotifState :=
  { connectedClients := [], sseClients := [sseBad4], dedupeCache := [] }

/-- Sample verify predicate for witnesses: accepts exactly the token good. -/
def verifyGood : String → Bool := fun t => t = "good"

/-- A key absent from an association list stays absent after a filter. -/
theorem findExpiry_filter_none (p : String × Nat → Bool) {cache : DedupCache} {key : String}
    (h : findExpiry cache key = none) : findExpiry (cache.filter p) key = none := by
  induction cache with
  | nil => simp [findExpiry]
  | cons kv rest ih =>
    rw [findExpiry] at h
    by_cases hk : kv.1 = key
    · simp [hk] at h
    · rw [if_neg hk] at h
      rw [List.filter_cons]
      cases hp : p kv with
      | false => exact ih h
      | true =>
        rw [if_pos rfl, findExpiry, if_neg hk]
        exact ih h

/-- Lookup in an appended association list when the key misses the front. -/
theorem findExpiry_append {c1 c2 : DedupCache} {key : String}
    (h : findExpiry c1 key = none) : findExpiry (c1 ++ c2) key = findExpiry c2 key := by
  induction c1 with
  | nil => simp
  | cons kv rest ih =>
    rw [findExpiry] at h
    by_cases hk : kv.1 = key
    · simp [hk] at h
    · rw [if_neg hk] at h
      rw [List.cons_append, findExpiry, if_neg hk]
      exact ih h

/-- shouldProcessEvent on a key absent after the sweep: accepted and inserted
with expiry now + DEDUPE_TTL_MS. -/
theorem shouldProcessEvent_fresh {e : RawEvent} {now : Nat} {cache : DedupCache}
    (h : findExpiry (sweepExpired cache now) (dedupKey e) = none) :
    shouldProcessEvent e now cache =
      (true, sweepExpired cache now ++ [(dedupKey e, now + DEDUPE_TTL_MS)]) := by
  simp [shouldProcessEvent, h]

/-- shouldProcessEvent on a key present after the sweep: suppressed, cache is
the swept cache. -/
theorem shouldProcessEvent_dup {e : RawEvent} {now : Nat} {cache : DedupCache} {v : Nat}
    (h : findExpiry (sweepExpired cache now) (dedupKey e) = some v) :
    shouldProcessEvent e now cache = (false, sweepExpired cache now) := by
  simp [shouldProcessEvent, h]

/-- Claim C1: two raw events with identical kind, correlationId and occurredAt
fields, arriving via either transport in any combination within the TTL
window, pass the dedup gate exactly once: shouldProcessEvent returns true for
the first and false for the second, and running the shared ingest pipeline on
both (one call per transport) performs exactly one broadcast. The atomicity of
the check-and-insert is modelled by sequential composition of the two calls on
the shared cache, matching the synchronous single-threaded execution of
shouldProcessEvent. -/
theorem dedup_exactly_one_within_ttl (e1 e2 : RawEvent) (tr1 tr2 : Transport)
    (cl : List WSClient) (sl : List SSEClient) (c : DedupCache)
    (t1 t2 : Nat) (iso1 iso2 : String)
    (hkey : dedupKey e2 = dedupKey e1)
    (hfresh : findExpiry (sweepExpired c t1) (dedupKey e1) = none)
    (_hord : t1 ≤ t2) (httl : t2 < t1 + DEDUPE_TTL_MS) :
    (shouldProcessEvent e1 t1 c).1 = true ∧
    (shouldProcessEvent e2 t2 (shouldProcessEvent e1 t1 c).2).1 = false ∧
    (ingest tr1 e1 t1 iso1 { connectedClients := cl, sseClients := sl, dedupeCache := c }).2 +
      (ingest tr2 e2 t2 iso2
        (ingest tr1 e1 t1 iso1 { connectedClients := cl, sseClients := sl, dedupeCache := c }).1).2
      = 1 := by
  have h1 := shouldProcessEvent_fresh hfresh
  have hsweep2 : sweepExpired (sweepExpired c t1 ++ [(dedupKey e1, t1 + DEDUPE_TTL_MS)]) t2 =
      sweepExpired (sweepExpired c t1) t2 ++ [(dedupKey e1, t1 + DEDUPE_TTL_MS)] := by
    simp [sweepExpired, List.filter_append, httl]
  have hns : findExpiry (sweepExpired (sweepExpired c t1) t2) (dedupKey e1) = none :=
    findExpiry_filter_none _ hfresh
  have h2find : findExpiry
      (sweepExpired (sweepExpired c t1 ++ [(dedupKey e1, t1 + DEDUPE_TTL_MS)]) t2)
      (dedupKey e2) = some (t1 + DEDUPE_TTL_MS) := by
    rw [hsweep2, hkey, findExpiry_append hns]
    simp [findExpiry]
  have h2 := shouldProcessEvent_dup h2find
  refine ⟨by rw [h1], ?_, ?_⟩
  · rw [h1, h2]
  · simp [ingest, h1, h2, broadcastLibraryEvent]

/-- Witness for C1 at the documented Scenario A inputs: the same event via
RabbitMQ at time 0 and via Kafka at time 1000 ms, one broadcast in total. -/
theorem dedup_exactly_one_within_ttl_witness :
    (shouldProcessEvent evBorrowed 0 []).1 = true ∧
    (shouldProcessEvent evBorrowed 1000 (shouldProcessEvent evBorrowed 0 []).2).1 = false ∧
    (ingest Transport.rabbitmq evBorrowed 0 ("a")
        { connectedClients := [], sseClients := [], dedupeCache := [] }).2 +
      (ingest Transport.kafka evBorrowed 1000 ("b")
        (ingest Transport.rabbitmq evBorrowed 0 ("a")
          { connectedClients := [], sseClients := [], dedupeCache := [] }).1).2 = 1 :=
  dedup_exactly_one_within_ttl evBorrowed evBorrowed Transport.rabbitmq Transport.kafka
    [] [] [] 0 1000 ("a") ("b") rfl rfl (by decide) (by decide)

/-- Claim C2: two events with distinct dedup keys, both keys absent from the
cache, are never suppressed: shouldProcessEvent returns true for both and the
ingest pipeline broadcasts both. -/
theorem dedup_no_false_positive (e1 e2 : RawEvent) (tr1 tr2 : Transport)
    (cl : List WSClient) (sl : List SSEClient) (c : DedupCache)
    (t1 t2 : Nat) (iso1 iso2 : String)
    (hne : dedupKey e1 ≠ dedupKey e2)
    (h1 : findExpiry c (dedupKey e1) = none)
    (h2 : findExpiry c (dedupKey e2) = none) :
    (shouldProcessEvent e1 t1 c).1 = true ∧
    (shouldProcessEvent e2 t2 (shouldProcessEvent e1 t1 c).2).1 = true ∧
    (ingest tr1 e1 t1 iso1 { connectedClients := cl, sseClients := sl, dedupeCache := c }).2 +
      (ingest tr2 e2 t2 iso2
        (ingest tr1 e1 t1 iso1 { connectedClients := cl, sseClients := sl, dedupeCache := c }).1).2
      = 2 := by
  have hf1 : findExpiry (sweepExpired c t1) (dedupKey e1) = none := findExpiry_filter_none _ h1
  have hsp1 := shouldProcessEvent_fresh hf1
  have hmid : findExpiry (sweepExpired c t1) (dedupKey e2) = none :=
    findExpiry_filter_none _ h2
  have hc1 : findExpiry (sweepExpired c t1 ++ [(dedupKey e1, t1 + DEDUPE_TTL_MS)])
      (dedupKey e2) = none := by
    rw [findExpiry_append hmid]
    simp [findExpiry, hne]
  have hf2 : findExpiry
      (sweepExpired (sweepExpired c t1 ++ [(dedupKey e1, t1 + DEDUPE_TTL_MS)]) t2)
      (dedupKey e2) = none := findExpiry_filter_none _ hc1
  have hsp2 := shouldProcessEvent_fresh hf2
  refine ⟨by rw [hsp1], ?_, ?_⟩
  · rw [hsp1, hsp2]
  · simp [ingest, hsp1, hsp2, broadcastLibraryEvent]

/-- Witness for C2: a book.borrowed and a book.returned event on an empty
cache, both accepted and both broadcast. -/
theorem dedup_no_false_positive_witness :
    (shouldProcessEvent evBorrowed 0 []).1 = true ∧
    (shouldProcessEvent evReturned 1000 (shouldProcessEvent evBorrowed 0 []).2).1 = true ∧
    (ingest Transport.rabbitmq evBorrowed 0 ("a")
        { connectedClients := [], sseClients := [], dedupeCache := [] }).2 +
      (ingest Transport.rabbitmq evReturned 1000 ("b")
        (ingest Transport.rabbitmq evBorrowed 0 ("a")
          { connectedClients := [], sseClients := [], dedupeCache := [] }).1).2 = 2 :=
  dedup_no_false_positive evBorrowed evReturned Transport.rabbitmq Transport.rabbitmq
    [] [] [] 0 1000 ("a") ("b") (by decide) rfl rfl

/-- Claim C9: expired entries are swept before the membership check, so a key
recurring after the TTL (2 minutes) has elapsed is accepted again: with the
first occurrence at t1 and the second at t2 at least TTL later, both calls
return true. -/
theorem dedup_ttl_expiry_rebroadcast (e1 e2 : RawEvent) (c : DedupCache) (t1 t2 : Nat)
    (hkey : dedupKey e2 = dedupKey e1)
    (hfresh : findExpiry (sweepExpired c t1) (dedupKey e1) = none)
    (httl : t1 + DEDUPE_TTL_MS ≤ t2) :
    DEDUPE_TTL_MS = 2 * 60 * 1000 ∧
    (shouldProcessEvent e1 t1 c).1 = true ∧
    (shouldProcessEvent e2 t2 (shouldProcessEvent e1 t1 c).2).1 = true := by
  have h1 := shouldProcessEvent_fresh hfresh
  have hsweep : sweepExpired (sweepExpired c t1 ++ [(dedupKey e1, t1 + DEDUPE_TTL_MS)]) t2 =
      sweepExpired (sweepExpired c t1) t2 := by
    simp [sweepExpired, List.filter_append, Nat.not_lt.mpr httl]
  have hf2 : findExpiry
      (sweepExpired (sweepExpired c t1 ++ [(dedupKey e1, t1 + DEDUPE_TTL_MS)]) t2)
      (dedupKey e2) = none := by
    rw [hsweep, hkey]
    exact findExpiry_filter_none _ hfresh
  have h2 := shouldProcessEvent_fresh hf2
  refine ⟨rfl, by rw [h1], ?_⟩
  rw [h1, h2]

/-- Witness for C9 at the documented Scenario D inputs: the same key at time 0
and 3 minutes later, both accepted. -/
theorem dedup_ttl_expiry_rebroadcast_witness :
    DEDUPE_TTL_MS = 2 * 60 * 1000 ∧
    (shouldProcessEvent evBorrowed 0 []).1 = true ∧
    (shouldProcessEvent evBorrowed 180000 (shouldProcessEvent evBorrowed 0 []).2).1 = true :=
  dedup_ttl_expiry_rebroadcast evBorrowed evBorrowed [] 0 180000 rfl rfl (by decide)

/-- Counting an element absent from a list. -/
theorem countP_decide_eq_zero {α : Type} [DecidableEq α] {l : List α} {a : α}
    (ha : a ∉ l) : l.countP (fun x => decide (x = a)) = 0 := by
  induction l with
  | nil => rfl
  | cons b t ih =>
    rw [List.mem_cons, not_or] at ha
    have hb : ¬ b = a := fun h => ha.1 h.symm
    simp [List.countP_cons, ih ha.2, hb]

/-- Counting an element of a duplicate-free list. -/
theorem countP_decide_eq_one {α : Type} [DecidableEq α] {l : List α} {a : α}
    (hn : l.Nodup) (ha : a ∈ l) : l.countP (fun x => decide (x = a)) = 1 := by
  induction l with
  | nil => cases ha
  | cons b t ih =>
    rw [List.nodup_cons] at hn
    rcases List.mem_cons.mp ha with h | h
    · subst h
      simp [List.countP_cons, countP_decide_eq_zero hn.1]
    · have hb : ¬ b = a := fun e => hn.1 (e ▸ h)
      simp [List.countP_cons, ih hn.2 h, hb]

/-- Send-attempt counts add over concatenated delivery lists. -/
theorem wsAttempts_append (d1 d2 : List Delivery) (w : WSClient) :
    wsAttempts (d1 ++ d2) w = wsAttempts d1 w + wsAttempts d2 w := by
  simp [wsAttempts, List.countP_append]

/-- Write-attempt counts add over concatenated delivery lists. -/
theorem sseAttempts_append (d1 d2 : List Delivery) (c : SSEClient) :
    sseAttempts (d1 ++ d2) c = sseAttempts d1 c + sseAttempts d2 c := by
  simp [sseAttempts, List.countP_append]

/-- Send attempts inside the WebSocket half of a broadcast count the client. -/
theorem wsAttempts_wsPart (cs : List WSClient) (msg : String) (w : WSClient) :
    wsAttempts (cs.map (fun c => Delivery.wsSend c msg)) w =
      cs.countP (fun c => decide (c = w)) := by
  induction cs with
  | nil => rfl
  | cons b t ih =>
    simp only [wsAttempts] at ih ⊢
    simp [List.countP_cons, ih]

/-- A WebSocket client receives no attempt from the SSE half of a broadcast. -/
theorem wsAttempts_ssePart (ss : List SSEClient) (frame : String) (w : WSClient) :
    wsAttempts (ss.map (fun r => Delivery.sseWrite r frame (!r.writeFails))) w = 0 := by
  induction ss with
  | nil => rfl
  | cons b t ih =>
    simp only [wsAttempts] at ih ⊢
    simp [List.countP_cons, ih]

/-- An SSE client receives no attempt from the WebSocket half of a broadcast. -/
theorem sseAttempts_wsPart (cs : List WSClient) (msg : String) (c : SSEClient) :
    sseAttempts (cs.map (fun x => Delivery.wsSend x msg)) c = 0 := by
  induction cs with
  | nil => rfl
  | cons b t ih =>
    simp only [sseAttempts] at ih ⊢
    simp [List.countP_cons, ih]

/-- Write attempts inside the SSE half of a broadcast count the client. -/
theorem sseAttempts_ssePart (ss : List SSEClient) (frame : String) (c : SSEClient) :
    sseAttempts (ss.map (fun r => Delivery.sseWrite r frame (!r.writeFails))) c =
      ss.countP (fun r => decide (r = c)) := by
  induction ss with
  | nil => rfl
  | cons b t ih =>
    simp only [sseAttempts] at ih ⊢
    simp [List.countP_cons, ih]

/-- Claim C4, amended: during one broadcast every SSE subscriber registered
before the call receives exactly one write attempt, and every WebSocket
subscriber receives exactly one send attempt when its readyState is OPEN and
zero attempts otherwise (the code guards each send with a readyState check);
the counts are independent of any other subscriber failing. -/
theorem broadcast_one_attempt_per_subscriber (e : RawEvent) (src iso : String) (st : NotifState)
    (w : WSClient) (c : SSEClient)
    (hnw : st.connectedClients.Nodup) (hns : st.sseClients.Nodup) :
    (w ∈ st.connectedClients →
      wsAttempts (broadcastLibraryEvent e src iso st).1 w =
        if w.readyState = ReadyState.OPEN then 1 else 0) ∧
    (c ∈ st.sseClients → sseAttempts (broadcastLibraryEvent e src iso st).1 c = 1) := by
  constructor
  · intro hw
    simp only [broadcastLibraryEvent]
    rw [wsAttempts_append, wsAttempts_wsPart, wsAttempts_ssePart]
    by_cases hopen : w.readyState = ReadyState.OPEN
    · rw [if_pos hopen]
      have hmem : w ∈ st.connectedClients.filter (fun x => x.readyState = ReadyState.OPEN) :=
        List.mem_filter.mpr ⟨hw, by simp [hopen]⟩
      rw [countP_decide_eq_one (hnw.filter _) hmem]
    · rw [if_neg hopen]
      have hnm : w ∉ st.connectedClients.filter (fun x => x.readyState = ReadyState.OPEN) := by
        intro hmem
        exact hopen (by simpa using (List.mem_filter.mp hmem).2)
      rw [countP_decide_eq_zero hnm]
  · intro hc
    simp only [broadcastLibraryEvent]
    rw [sseAttempts_append, sseAttempts_wsPart, sseAttempts_ssePart,
      countP_decide_eq_one hns hc]

/-- Witness for the amended C4 on a state with an open and a closing WebSocket
client and a healthy and a failing SSE client. -/
theorem broadcast_one_attempt_per_subscriber_witness :
    (wsAttempts (broadcastLibraryEvent evBorrowed (sourceName Transport.rabbitmq) ("t0") stFull).1
        wsOpen1 = if wsOpen1.readyState = ReadyState.OPEN then 1 else 0) ∧
    sseAttempts (broadcastLibraryEvent evBorrowed (sourceName Transport.rabbitmq) ("t0") stFull).1
        sseBad4 = 1 :=
  ⟨(broadcast_one_attempt_per_subscriber evBorrowed (sourceName Transport.rabbitmq) ("t0")
      stFull wsOpen1 sseBad4 (by decide) (by decide)).1 (by decide),
   (broadcast_one_attempt_per_subscriber evBorrowed (sourceName Transport.rabbitmq) ("t0")
      stFull wsOpen1 sseBad4 (by decide) (by decide)).2 (by decide)⟩

/-- Counterexample to C4 as stated: a registered WebSocket subscriber whose
readyState is CLOSING is present when the broadcast begins yet receives zero
delivery attempts, not exactly one. -/
theorem broadcast_skips_non_open_counterexample :
    wsClosing2 ∈ stFull.connectedClients ∧
    wsAttempts (broadcastLibraryEvent evBorrowed (sourceName Transport.rabbitmq) ("t0") stFull).1
      wsClosing2 = 0 := by
  constructor
  · decide
  · decide

/-- Counterexample to C3 as stated: broadcasting to a registry holding one SSE
client whose write throws produces a failed delivery attempt, yet the client
is still present in the registry when the broadcast call returns: the
broadcast removes nothing. -/
theorem failed_subscriber_not_removed_counterexample :
    broadcastLibraryEvent evBorrowed (sourceName Transport.rabbitmq) ("t0") stBad =
      ([Delivery.sseWrite sseBad4
          (sseFrame (mkPayload evBorrowed (sourceName Transport.rabbitmq) ("t0"))) false],
        stBad) ∧
    sseBad4 ∈ (broadcastLibraryEvent evBorrowed (sourceName Transport.rabbitmq) ("t0")
      stBad).2.sseClients := by
  exact ⟨rfl, by decide⟩

/-- Claim C3, amended: a subscriber whose delivery fails is not removed by the
broadcast itself — the write error is swallowed and the broadcast leaves the
registry unchanged; the subscriber is removed only when its own connection
close handler fires, after which it is absent and receives no attempt in any
subsequent broadcast. -/
theorem broadcast_leaves_failed_subscriber (e : RawEvent) (src iso : String) (st : NotifState)
    (c : SSEClient) :
    (broadcastLibraryEvent e src iso st).2 = st ∧
    c ∉ (sseCloseHandler c st).sseClients ∧
    sseAttempts (broadcastLibraryEvent e src iso (sseCloseHandler c st)).1 c = 0 := by
  refine ⟨rfl, ?_, ?_⟩
  · intro hmem
    simp [sseCloseHandler] at hmem
  · simp only [broadcastLibraryEvent]
    rw [sseAttempts_append, sseAttempts_wsPart, sseAttempts_ssePart]
    have hnm : c ∉ (sseCloseHandler c st).sseClients := by
      intro hmem
      simp [sseCloseHandler] at hmem
    rw [countP_decide_eq_zero hnm]

/-- Claim C10: a broadcast leaves the WebSocket subscriber set, the SSE
subscriber set and the dedup cache exactly as it found them; membership
changes are performed by the per-connection close and error handlers, which
remove their client. -/
theorem broadcast_frame_registry_unchanged (e : RawEvent) (src iso : String) (st : NotifState)
    (w : WSClient) (c : SSEClient) :
    (broadcastLibraryEvent e src iso st).2.connectedClients = st.connectedClients ∧
    (broadcastLibraryEvent e src iso st).2.sseClients = st.sseClients ∧
    (broadcastLibraryEvent e src iso st).2.dedupeCache = st.dedupeCache ∧
    w ∉ (wsCloseHandler w st).connectedClients ∧
    w ∉ (wsErrorHandler w st).connectedClients ∧
    c ∉ (sseCloseHandler c st).sseClients := by
  refine ⟨rfl, rfl, rfl, ?_, ?_, ?_⟩ <;> intro h
  · simp [wsCloseHandler] at h
  · simp [wsErrorHandler] at h
  · simp [sseCloseHandler] at h

/-- Claim C5: the WebSocket connection handler closes a connection carrying no
token (or the falsy empty token) with close code 4001, and a non-empty token
failing verification with the distinct close code 4002, creating no registry
entry in either case; only a verified client is added to connectedClients. -/
theorem ws_connection_auth (verify : String → Bool) (ws : WSClient) (st : NotifState) :
    wssOnConnection verify none ws st = (ConnResult.closed 4001 missingTokenMsg, st) ∧
    wssOnConnection verify (some ("")) ws st = (ConnResult.closed 4001 missingTokenMsg, st) ∧
    (∀ t : String, t ≠ "" → verify t = false →
      wssOnConnection verify (some t) ws st = (ConnResult.closed 4002 invalidTokenMsg, st)) ∧
    (∀ t : String, t ≠ "" → verify t = true →
      wssOnConnection verify (some t) ws st =
        (ConnResult.accepted, { st with connectedClients := st.connectedClients ++ [ws] })) ∧
    (4001 : Nat) ≠ 4002 := by
  refine ⟨rfl, rfl, ?_, ?_, by decide⟩
  · intro t ht hv
    simp [wssOnConnection, ht, hv]
  · intro t ht hv
    simp [wssOnConnection, ht, hv]

/-- Witness for C5: with a verifier accepting exactly the token good, a
missing token closes with 4001, a bad token with 4002, and the good token
registers the client. -/
theorem ws_connection_auth_witness :
    wssOnConnection verifyGood none wsOpen1 stSample =
      (ConnResult.closed 4001 missingTokenMsg, stSample) ∧
    wssOnConnection verifyGood (some ("bad")) wsOpen1 stSample =
      (ConnResult.closed 4002 invalidTokenMsg, stSample) ∧
    wssOnConnection verifyGood (some ("good")) wsOpen1 stSample =
      (ConnResult.accepted,
        { stSample with connectedClients := stSample.connectedClients ++ [wsOpen1] }) :=
  ⟨(ws_connection_auth verifyGood wsOpen1 stSample).1,
   (ws_connection_auth verifyGood wsOpen1 stSample).2.2.1 ("bad") (by decide) (by decide),
   (ws_connection_auth verifyGood wsOpen1 stSample).2.2.2.1 ("good") (by decide) (by decide)⟩

/-- Claim C6: the outbound payload is built once as type = the event kind,
data = all fields of the original event plus the source transport, and
timestamp = the receipt-time ISO string; every OPEN WebSocket client is sent
its JSON; the SSE frame is the labeled block with the kind on the event line
and the payload JSON on the data line; a newly connected SSE client first
receives the connected block and then receives the labeled frame of the next
broadcast. -/
theorem outbound_payload_shape (e : RawEvent) (k src iso iso0 : String) (st : NotifState)
    (res : SSEClient) (hk : e.event = some k) :
    (mkPayload e src iso).type = some k ∧
    (mkPayload e src iso).data.ev = e ∧
    (mkPayload e src iso).data.source = src ∧
    (mkPayload e src iso).timestamp = iso ∧
    (∀ w : WSClient, w ∈ st.connectedClients → w.readyState = ReadyState.OPEN →
      Delivery.wsSend w (serializePayload (mkPayload e src iso)) ∈
        (broadcastLibraryEvent e src iso st).1) ∧
    sseFrame (mkPayload e src iso) =
      "event: " ++ k ++ "\ndata: " ++ serializePayload (mkPayload e src iso) ++ "\n\n" ∧
    (sseConnect res iso0 st).1 = [connectedFrame iso0] ∧
    Delivery.sseWrite res (sseFrame (mkPayload e src iso)) (!res.writeFails) ∈
      (broadcastLibraryEvent e src iso (sseConnect res iso0 st).2).1 := by
  refine ⟨by simp [mkPayload, hk], rfl, rfl, rfl, ?_, ?_, rfl, ?_⟩
  · intro w hw hopen
    simp only [broadcastLibraryEvent]
    apply List.mem_append_left
    exact List.mem_map_of_mem _ (List.mem_filter.mpr ⟨hw, by simp [hopen]⟩)
  · simp [sseFrame, labeledBlock, mkPayload, jsTemplate, hk]
  · simp only [broadcastLibraryEvent, sseConnect]
    apply List.mem_append_right
    exact List.mem_map_of_mem _ (by simp)

/-- Witness for C6 at the documented Scenario C inputs: a book.returned event
from Kafka reaching a state with one open WebSocket client and one SSE client
that just connected. -/
theorem outbound_payload_shape_witness :
    (mkPayload evReturned (sourceName Transport.kafka) ("iso1")).type = some ("book.returned") ∧
    Delivery.wsSend wsOpen1
        (serializePayload (mkPayload evReturned (sourceName Transport.kafka) ("iso1"))) ∈
      (broadcastLibraryEvent evReturned (sourceName Transport.kafka) ("iso1") stSample).1 ∧
    sseFrame (mkPayload evReturned (sourceName Transport.kafka) ("iso1")) =
      "event: " ++ "book.returned" ++ "\ndata: " ++
        serializePayload (mkPayload evReturned (sourceName Transport.kafka) ("iso1")) ++ "\n\n" ∧
    Delivery.sseWrite sseGood3
        (sseFrame (mkPayload evReturned (sourceName Transport.kafka) ("iso1")))
        (!sseGood3.writeFails) ∈
      (broadcastLibraryEvent evReturned (sourceName Transport.kafka) ("iso1")
        (sseConnect sseGood3 ("iso0") stSample).2).1 := by
  have h := outbound_payload_shape evReturned ("book.returned") (sourceName Transport.kafka)
    ("iso1") ("iso0") stSample sseGood3 rfl
  exact ⟨h.1, h.2.2.2.2.1 wsOpen1 (by decide) rfl, h.2.2.2.2.2.1, h.2.2.2.2.2.2.2⟩

/-- Counterexample to C7 as stated: the periodic keep-alive block is not an
unlabeled block — it is written through the same labeled event-line template
as every event frame, with the label ping: its first characters are the
event label line. -/
theorem keepalive_labeled_counterexample :
    pingFrame 0 = labeledBlock ("ping") (toString 0) ∧
    (pingFrame 0).data.take 7 = ("event: ").data :=
  ⟨rfl, by decide⟩

/-- Claim C7, amended: each SSE connection runs its own interval firing every
KEEP_ALIVE_INTERVAL_MS = 25000 ms, with consecutive firings exactly that far
apart; each firing appends the keep-alive block to the connection regardless
of which broadcasts occurred before it (including none); the block is the
labeled ping block. -/
theorem keepalive_fixed_interval (t0 k t : Nat) (hs : List SseHappening) :
    KEEP_ALIVE_INTERVAL_MS = 25000 ∧
    intervalTick t0 (k + 1) = intervalTick t0 k + KEEP_ALIVE_INTERVAL_MS ∧
    sseSessionWrites (hs ++ [SseHappening.tick t]) = sseSessionWrites hs ++ [pingFrame t] ∧
    pingFrame t = labeledBlock ("ping") (toString t) := by
  refine ⟨rfl, ?_, ?_, rfl⟩
  · simp only [intervalTick]
    ring
  · simp [sseSessionWrites, happeningWrite]

/-- The RabbitMQ consume handler acknowledges every message: the finally
clause acks whether parsing failed, the event was a duplicate, or it was new. -/
theorem consumeRabbitList_acks (ms : List TimedMsg) (st : NotifState) :
    (consumeRabbitList ms st).acks = ms.length := by
  induction ms generalizing st with
  | nil => rfl
  | cons m rest ih =>
    cases hm : m.msg with
    | malformed s => simp [consumeRabbitList, hm, ih]
    | wellFormed e => simp [consumeRabbitList, hm, ih]

/-- Inserting a malformed message anywhere in a RabbitMQ run only logs a parse
error and acks it: the final state and the broadcasts are those of the run
without it. -/
theorem consumeRabbitList_insert_malformed (pre : List TimedMsg) (s : String) (t : Nat)
    (iso : String) (post : List TimedMsg) (st : NotifState) :
    consumeRabbitList (pre ++ { msg := RawMsg.malformed s, now := t, iso := iso } :: post) st =
      { consumeRabbitList (pre ++ post) st with
        acks := (consumeRabbitList (pre ++ post) st).acks + 1,
        parseErrors := (consumeRabbitList (pre ++ post) st).parseErrors + 1 } := by
  induction pre generalizing st with
  | nil => simp [consumeRabbitList]
  | cons m rest ih =>
    cases hm : m.msg with
    | malformed s3 => simp [consumeRabbitList, hm, ih]
    | wellFormed e => simp [consumeRabbitList, hm, ih]

/-- Inserting a malformed message anywhere in a Kafka run only logs a handling
error: the final state and the broadcasts are those of the run without it. -/
theorem consumeKafkaList_insert_malformed (kpre : List (KafkaValue × Nat × String))
    (s2 : String) (t2 : Nat) (iso2 : String) (kpost : List (KafkaValue × Nat × String))
    (st : NotifState) :
    consumeKafkaList (kpre ++ (KafkaValue.content (RawMsg.malformed s2), t2, iso2) :: kpost) st =
      { consumeKafkaList (kpre ++ kpost) st with
        handlingErrors := (consumeKafkaList (kpre ++ kpost) st).handlingErrors + 1 } := by
  induction kpre generalizing st with
  | nil => simp [consumeKafkaList]
  | cons m rest ih =>
    rcases m with ⟨v, now, iso⟩
    cases v with
    | absent => simp [consumeKafkaList, ih]
    | content mm =>
      cases mm with
      | malformed s4 => simp [consumeKafkaList, ih]
      | wellFormed e => simp [consumeKafkaList, ih]

/-- Claim C8: a message whose body is not valid JSON is logged and skipped on
either transport without stopping the consumer loop — the surrounding
well-formed messages produce the same final state and the same broadcasts as
if the malformed message had never arrived — and on RabbitMQ every consumed
message is acknowledged unconditionally. -/
theorem malformed_skipped_and_acked (pre post : List TimedMsg) (s : String) (t : Nat)
    (iso : String) (st : NotifState) (ms : List TimedMsg)
    (kpre kpost : List (KafkaValue × Nat × String)) (s2 : String) (t2 : Nat) (iso2 : String) :
    (consumeRabbitList (pre ++ { msg := RawMsg.malformed s, now := t, iso := iso } :: post)
        st).final = (consumeRabbitList (pre ++ post) st).final ∧
    (consumeRabbitList (pre ++ { msg := RawMsg.malformed s, now := t, iso := iso } :: post)
        st).broadcasts = (consumeRabbitList (pre ++ post) st).broadcasts ∧
    (consumeRabbitList (pre ++ { msg := RawMsg.malformed s, now := t, iso := iso } :: post)
        st).parseErrors = (consumeRabbitList (pre ++ post) st).parseErrors + 1 ∧
    (consumeRabbitList ms st).acks = ms.length ∧
    (consumeKafkaList (kpre ++ (KafkaValue.content (RawMsg.malformed s2), t2, iso2) :: kpost)
        st).final = (consumeKafkaList (kpre ++ kpost) st).final ∧
    (consumeKafkaList (kpre ++ (KafkaValue.content (RawMsg.malformed s2), t2, iso2) :: kpost)
        st).broadcasts = (consumeKafkaList (kpre ++ kpost) st).broadcasts ∧
    (consumeKafkaList (kpre ++ (KafkaValue.content (RawMsg.malformed s2), t2, iso2) :: kpost)
        st).handlingErrors = (consumeKafkaList (kpre ++ kpost) st).handlingErrors + 1 := by
  refine ⟨?_, ?_, ?_, consumeRabbitList_acks ms st, ?_, ?_, ?_⟩
  · rw [consumeRabbitList_insert_malformed]
  · rw [consumeRabbitList_insert_malformed]
  · rw [consumeRabbitList_insert_malformed]
  · rw [consumeKafkaList_insert_malformed]
  · rw [consumeKafkaList_insert_malformed]
  · rw [consumeKafkaList_insert_malformed]

end LibraryNotification
